import Mathlib

/-!
Shallow embedding of the native backend of the beautiFULLshot screenshot
application (src/src-tauri/src), covering the modules the claims refer to:
`screenshot.rs` (region and window capture), `overlay.rs` (snapshot store and
overlay session), `clipboard.rs` (clipboard export with a size ceiling) and
`file_ops.rs` (file export with size and path-traversal guards).

Platform facilities (the xcap capture provider, the tauri window system, the
base64 codec, the PNG codec, the filesystem) are external collaborators: they
enter the model as parameters or as explicit data, and the Lean definitions
embed exactly the arithmetic and control flow of the Rust source.  Machine
integers are modelled as `Nat` / `Int`; every Rust operation used by the source
(`i32::max`, the `as u32` cast of a non-negative `i32`, `u32::saturating_sub`,
`u32::min`, `usize` comparison, `usize` multiplication and division on inputs
far below `2^64`) agrees with the unbounded Lean operation on the values in
range, so no explicit modular reduction is needed.
-/

namespace Screenshot

/-- Dimensions of a captured RGBA image (`image::RgbaImage`).  Pixel content is
irrelevant to the claims, which are about crop geometry, so only the
dimensions are carried. -/
structure ImageD where
  width : Nat
  height : Nat
deriving DecidableEq, Repr

/-- The crop rectangle that `capture_region` hands to
`image::imageops::crop_imm`: anchor `(x, y)` and extent `w × h` inside the
captured image.  `crop_imm(&image, x, y, w, h).to_image()` yields a `w × h`
image whose pixel `(i, j)` is the captured image's pixel `(x+i, y+j)`. -/
structure CropRect where
  x : Nat
  y : Nat
  w : Nat
  h : Nat
deriving DecidableEq, Repr

/-- Embeds `capture_region` (screenshot.rs, lines 60-85).  The prefix of the
source (enumerate monitors, find the primary one, capture its image) is the
external capture provider; its successful result supplies the captured image's
dimensions `img_width × img_height`.  The function returns the crop rectangle
computed by the source's arithmetic; the source then crops to this rectangle
and PNG-encodes the result.

Source arithmetic embedded line by line:
`start_x = x.max(0) as u32`, `start_y = y.max(0) as u32`,
`crop_width = width.min(img_width.saturating_sub(start_x))`,
`crop_height = height.min(img_height.saturating_sub(start_y))`;
error when either crop extent is zero.  `Nat` subtraction is exactly
`u32::saturating_sub` on in-range values. -/
def capture_region (img_width img_height : Nat) (x y : Int) (width height : Nat) :
    Except String CropRect :=
  let start_x : Nat := (max x 0).toNat
  let start_y : Nat := (max y 0).toNat
  let crop_width : Nat := min width (img_width - start_x)
  let crop_height : Nat := min height (img_height - start_y)
  if crop_width = 0 ∨ crop_height = 0 then
    .error "Invalid region dimensions"
  else
    .ok ⟨start_x, start_y, crop_width, crop_height⟩

/-- Follows the spec's words (claim C2), not the source: the width of the
intersection of the requested rectangle `[x, x + w)` with the monitor bounds
`[0, imgW)`. -/
def specIntersectWidth (imgW : Nat) (x : Int) (w : Nat) : Nat :=
  (min (x + (w : Int)) (imgW : Int) - max x 0).toNat

/-- Follows the spec's words (claim C2): the height of the intersection of the
requested rectangle `[y, y + h)` with the monitor bounds `[0, imgH)`. -/
def specIntersectHeight (imgH : Nat) (y : Int) (h : Nat) : Nat :=
  (min (y + (h : Int)) (imgH : Int) - max y 0).toNat

/-- A window as reported by the platform window enumeration (`xcap::Window`).
Each getter of the xcap API is fallible, which the source absorbs with
`unwrap_or` / `unwrap_or_default`; the getters are therefore modelled as
`Option`-valued fields.  `capture_image` is the window's capture result:
dimensions on success, a platform error otherwise. -/
structure XcapWindowData where
  id : Option Nat
  app_name : Option String
  title : Option String
  x : Option Int
  y : Option Int
  width : Option Nat
  height : Option Nat
  capture_image : Except String ImageD

/-- Mirrors the `WindowInfo` struct of screenshot.rs. -/
structure WindowInfo where
  id : Nat
  app_name : String
  title : String
  x : Int
  y : Int
  width : Nat
  height : Nat
deriving DecidableEq, Repr

/-- The loop body of `get_windows` (screenshot.rs, lines 89-109): skip a window
whose (defaulted) title is empty, otherwise build its `WindowInfo` with the
source's `unwrap_or` defaults. -/
def windowInfoOf (w : XcapWindowData) : Option WindowInfo :=
  let title := w.title.getD ""
  if title = "" then
    none
  else
    some ⟨w.id.getD 0, w.app_name.getD "", title,
          w.x.getD 0, w.y.getD 0, w.width.getD 0, w.height.getD 0⟩

/-- Embeds `get_windows` (screenshot.rs, lines 89-109).  `enum` is the result
of the external `XcapWindow::all()`; an enumeration failure is surfaced, a
success is filtered to the windows with a non-empty title, in order. -/
def get_windows (enum : Except String (List XcapWindowData)) :
    Except String (List WindowInfo) :=
  match enum with
  | .error e => .error e
  | .ok windows => .ok (windows.filterMap windowInfoOf)

/-- Embeds `capture_window` (screenshot.rs, lines 113-122).  `enum` is the
result of the external `XcapWindow::all()` — the raw, unfiltered list;
`png_encode` is the external `image_to_png_bytes` PNG encoder.  The source
searches the raw list for the first window with `w.id().unwrap_or(0) ==
window_id`, captures it and encodes the capture. -/
def capture_window (png_encode : ImageD → Except String (List Nat))
    (enum : Except String (List XcapWindowData)) (window_id : Nat) :
    Except String (List Nat) :=
  match enum with
  | .error e => .error e
  | .ok windows =>
    match windows.find? (fun w => w.id.getD 0 == window_id) with
    | none => .error "Window not found"
    | some w =>
      match w.capture_image with
      | .error e => .error e
      | .ok img => png_encode img

end Screenshot

namespace Overlay

/-- The snapshot store: the contents of the `OVERLAY_SCREENSHOT` mutex slot of
overlay.rs — an optional encoded-image byte buffer.  The mutex itself is the
concurrency guard; commands are modelled as functions of the slot's value
(poisoning is absorbed by the source with `unwrap_or_else(|p| p.into_inner())`,
so every command always reaches the value). -/
abbrev Store := Option (List Nat)

/-- The overlay window handle, per the capability interface of the design
notes: absent until first created, afterwards hidden or visible.  The window
is created with `.visible(false)` and only ever hidden by this module; the UI
layer may show it, hence the `visible` state. -/
inductive WindowState
  | absent
  | hidden
  | visible
deriving DecidableEq, Repr

/-- The process-wide mutable state of overlay.rs: the snapshot slot and the
`region-overlay` webview window handle. -/
structure OverlayState where
  snapshot : Store
  window : WindowState
deriving DecidableEq, Repr

/-- Embeds `get_screenshot_data` (overlay.rs, lines 12-17): lock the slot
(recovering from poisoning) and return a clone of its contents.  Returned as
(result, slot after the call). -/
def get_screenshot_data (s : Store) : Option (List Nat) × Store :=
  (s, s)

/-- Embeds `clear_screenshot_data` (overlay.rs, lines 21-26): lock the slot and
set it to `None`. -/
def clear_screenshot_data (_s : Store) : Store :=
  none

/-- Embeds `capture_and_show_overlay` (overlay.rs, lines 31-79).

External collaborators enter as parameters: `captureResult` is the outcome of
`crate::screenshot::capture_fullscreen()` (the encoded bytes of the captured
primary-monitor image, or a capture error) and `buildResult` is the outcome of
the `WebviewWindowBuilder::build()` call, which the source only runs when no
`region-overlay` window exists yet.

Control flow embedded from the source: a capture error aborts at the first
`?`, before the snapshot write; on capture success the snapshot slot is
overwritten with the captured bytes; if a window already exists it is hidden
(`let _ = w.hide()`) and reused; otherwise the window is built hidden
(`.visible(false)`), and a build error clears the just-stored snapshot before
being surfaced.  The trailing `set_fullscreen` / `emit` calls have their
results discarded and do not change the modelled state. -/
def capture_and_show_overlay (captureResult : Except String (List Nat))
    (buildResult : Except String Unit) (st : OverlayState) :
    Except String Unit × OverlayState :=
  match captureResult with
  | .error e => (.error e, st)
  | .ok screenshot_bytes =>
    let st1 : OverlayState := { st with snapshot := some screenshot_bytes }
    match st1.window with
    | .absent =>
      match buildResult with
      | .error e => (.error e, { st1 with snapshot := none })
      | .ok _ => (.ok (), { st1 with window := .hidden })
    | .hidden => (.ok (), { st1 with window := .hidden })
    | .visible => (.ok (), { st1 with window := .hidden })

/-- Embeds `hide_overlay_window` (overlay.rs, lines 83-88): if the
`region-overlay` window exists, call the platform hide and propagate its
failure (`window.hide().map_err(|e| e.to_string())?`); otherwise do nothing.
`hideResult` is the outcome of the external platform hide call, consulted
only when a window exists (hidden or visible — the source calls `hide` on the
handle regardless of current visibility); on success the window becomes
hidden, on failure the error is surfaced with the state unchanged. -/
def hide_overlay_window (hideResult : Except String Unit) (st : OverlayState) :
    Except String Unit × OverlayState :=
  match st.window with
  | .absent => (.ok (), st)
  | .hidden =>
    match hideResult with
    | .error e => (.error e, st)
    | .ok _ => (.ok (), { st with window := .hidden })
  | .visible =>
    match hideResult with
    | .error e => (.error e, st)
    | .ok _ => (.ok (), { st with window := .hidden })

end Overlay

namespace Clipboard

/-- `MAX_IMAGE_SIZE` of clipboard.rs: 50 MiB. -/
def MAX_IMAGE_SIZE : Nat := 50 * 1024 * 1024

/-- An image decoded by `image::load_from_memory`; only its dimensions are
observed by the source (`img.dimensions()`). -/
structure LoadedImage where
  width : Nat
  height : Nat
deriving DecidableEq, Repr

/-- The errors `copy_image_to_clipboard` can return, as structured values; the
source formats each with `format!`, reproduced by `ClipError.toMessage`. -/
inductive ClipError
  | imageTooLarge (estimated : Nat)
  | decodeFailed (e : String)
  | decodedTooLarge (n : Nat)
  | loadFailed (e : String)
  | clipboardAccessFailed (e : String)
  | copyFailed (e : String)
deriving DecidableEq, Repr

/-- The exact error strings of clipboard.rs. -/
def ClipError.toMessage : ClipError → String
  | .imageTooLarge estimated =>
      "Image too large: " ++ toString estimated ++ " bytes (max "
        ++ toString MAX_IMAGE_SIZE ++ " bytes)"
  | .decodeFailed e => "Failed to decode base64: " ++ e
  | .decodedTooLarge n =>
      "Decoded image too large: " ++ toString n ++ " bytes (max "
        ++ toString MAX_IMAGE_SIZE ++ " bytes)"
  | .loadFailed e => "Failed to load image: " ++ e
  | .clipboardAccessFailed e => "Failed to access clipboard: " ++ e
  | .copyFailed e => "Failed to copy to clipboard: " ++ e

/-- Embeds `copy_image_to_clipboard` (clipboard.rs, lines 13-66).

External collaborators enter as parameters: `decode` is the base64 codec
(`STANDARD.decode`), `load_from_memory` the image decoder, `set_image` the
clipboard push (clipboard access errors folded into it; the access error is
distinguished by its constructor where needed).  The source's control flow in
order: the pre-decode estimated-size gate `base64_data.len() * 3 / 4 >
MAX_IMAGE_SIZE` (usize arithmetic, no overflow for any representable input),
the base64 decode, the post-decode size gate `png_bytes.len() >
MAX_IMAGE_SIZE`, the image load, the clipboard push. -/
def copy_image_to_clipboard (decode : List Char → Except String (List Nat))
    (load_from_memory : List Nat → Except String LoadedImage)
    (set_image : LoadedImage → Except String Unit)
    (base64_data : List Char) : Except ClipError Unit :=
  let estimated_size := base64_data.length * 3 / 4
  if estimated_size > MAX_IMAGE_SIZE then
    .error (.imageTooLarge estimated_size)
  else
    match decode base64_data with
    | .error e => .error (.decodeFailed e)
    | .ok png_bytes =>
      if png_bytes.length > MAX_IMAGE_SIZE then
        .error (.decodedTooLarge png_bytes.length)
      else
        match load_from_memory png_bytes with
        | .error e => .error (.loadFailed e)
        | .ok img =>
          match set_image img with
          | .error e => .error (.copyFailed e)
          | .ok _ => .ok ()

/-- Modelled from the spec: the base64 codec is an external collaborator
(`base64::engine::general_purpose::STANDARD`, canonical padding).  The
canonically padded standard base64 encoding of `d` bytes has exactly
`4 * ceil(d / 3)` characters, and a string decodes successfully only when its
length is the canonical encoded length of its decoded byte count. -/
def base64CanonicalLen (d : Nat) : Nat := 4 * ((d + 2) / 3)

end Clipboard

namespace FileOps

/-- `MAX_FILE_SIZE` of file_ops.rs: 50 MiB. -/
def MAX_FILE_SIZE : Nat := 50 * 1024 * 1024

/-- A filesystem path, as its list of components (each component a separator-
free, non-empty string).  `std::path::Path` operations used by the source:
`parent` drops the final component (none on an empty path), `file_name` is the
final component unless it is the traversal segment `..` (for which Rust
returns `None`), `join` appends a component. -/
def file_name (p : List String) : Option String :=
  match p.getLast? with
  | none => none
  | some c => if c = ".." then none else some c

/-- `Path::parent`: drop the last component; `None` when there is nothing to
drop. -/
def parent (p : List String) : Option (List String) :=
  match p with
  | [] => none
  | _ :: _ => some p.dropLast

/-- The rendering of an absolute path as a string, used by the source's
`canonical_path.to_string_lossy()`: a `/`-separator before each component. -/
def pathChars : List String → List Char
  | [] => []
  | c :: rest => '/' :: (c.toList ++ pathChars rest)

/-- Whether a character list starts with the two characters `..`. -/
def startsWithDotDot : List Char → Bool
  | '.' :: '.' :: _ => true
  | _ => false

/-- The substring test of `path_str.contains("..")`: two consecutive `.`
characters anywhere in the rendered path. -/
def hasDotDot : List Char → Bool
  | [] => false
  | l@(_ :: rest) => startsWithDotDot l || hasDotDot rest

/-- The errors `save_file` can return, as structured values; the source
formats each with `format!`, reproduced by `SaveError.toMessage`. -/
inductive SaveError
  | fileTooLarge (sizeMB maxMB : Nat)
  | createDirFailed (e : String)
  | invalidPath (e : String)
  | invalidFilename
  | noParent
  | traversal
  | writeFailed (e : String)
deriving DecidableEq, Repr

/-- The exact error strings of file_ops.rs. -/
def SaveError.toMessage : SaveError → String
  | .fileTooLarge sizeMB maxMB =>
      "File size (" ++ toString sizeMB ++ " MB) exceeds maximum allowed ("
        ++ toString maxMB ++ " MB)"
  | .createDirFailed e => "Failed to create directory: " ++ e
  | .invalidPath e => "Invalid path: " ++ e
  | .invalidFilename => "Invalid filename"
  | .noParent => "Invalid path: no parent directory"
  | .traversal => "Invalid path: directory traversal not allowed"
  | .writeFailed e => "Failed to save file: " ++ e

/-- The filesystem side effects of one `save_file` call: the directories
passed to `std::fs::create_dir_all`, and the completed `std::fs::write` (path
components and bytes), if any. -/
structure SaveEffects where
  dirsCreated : List (List String)
  written : Option (List String × List Nat)
deriving DecidableEq, Repr

/-- Embeds `save_file` (file_ops.rs, lines 11-54).

External collaborators enter as parameters: `mkdir` is
`std::fs::create_dir_all`, `canonicalize` is `Path::canonicalize` (resolving
the parent to its canonical absolute component list, or failing), `write` is
`std::fs::write`.  Source control flow in order: the size gate `data.len() >
MAX_FILE_SIZE`; take the path's parent (error when there is none); create the
parent directory; canonicalize the parent; take the path's `file_name` (error
when absent); join the canonical parent with the filename; reject when the
rendered path string contains `..`; write; return the rendered path. -/
def save_file (mkdir : List String → Except String Unit)
    (canonicalize : List String → Except String (List String))
    (write : List String → List Nat → Except String Unit)
    (path : List String) (data : List Nat) :
    Except SaveError String × SaveEffects :=
  if data.length > MAX_FILE_SIZE then
    (.error (.fileTooLarge (data.length / (1024 * 1024)) (MAX_FILE_SIZE / (1024 * 1024))),
     ⟨[], none⟩)
  else
    match parent path with
    | none => (.error .noParent, ⟨[], none⟩)
    | some par =>
      match mkdir par with
      | .error e => (.error (.createDirFailed e), ⟨[par], none⟩)
      | .ok _ =>
        match canonicalize par with
        | .error e => (.error (.invalidPath e), ⟨[par], none⟩)
        | .ok canonical_parent =>
          match file_name path with
          | none => (.error .invalidFilename, ⟨[par], none⟩)
          | some filename =>
            let canonical_path := canonical_parent ++ [filename]
            if hasDotDot (pathChars canonical_path) then
              (.error .traversal, ⟨[par], none⟩)
            else
              match write canonical_path data with
              | .error e => (.error (.writeFailed e), ⟨[par], none⟩)
              | .ok _ =>
                (.ok (String.mk (pathChars canonical_path)),
                 ⟨[par], some (canonical_path, data)⟩)

end FileOps

/-! ## Helper lemmas -/

/-- For a non-negative origin, the spec's intersection width is exactly the
source's `width.min(img_width.saturating_sub(start_x))`. -/
theorem specIntersectWidth_of_nonneg (imgW : Nat) (x : Int) (w : Nat) (hx : 0 ≤ x) :
    Screenshot.specIntersectWidth imgW x w = min w (imgW - x.toNat) := by
  unfold Screenshot.specIntersectWidth
  omega

/-- Height counterpart of `specIntersectWidth_of_nonneg`. -/
theorem specIntersectHeight_of_nonneg (imgH : Nat) (y : Int) (h : Nat) (hy : 0 ≤ y) :
    Screenshot.specIntersectHeight imgH y h = min h (imgH - y.toNat) := by
  unfold Screenshot.specIntersectHeight
  omega

/-- Unfolding equation for `hasDotDot` on a cons cell. -/
theorem hasDotDot_cons (c : Char) (l : List Char) :
    FileOps.hasDotDot (c :: l) =
      (FileOps.startsWithDotDot (c :: l) || FileOps.hasDotDot l) := rfl

/-- `startsWithDotDot` is true on a list beginning with two dots. -/
theorem startsWithDotDot_dotdot (l : List Char) :
    FileOps.startsWithDotDot ('.' :: '.' :: l) = true := rfl

/-- The `..` substring test is preserved by prepending characters. -/
theorem hasDotDot_append_left (a l : List Char) (h : FileOps.hasDotDot l = true) :
    FileOps.hasDotDot (a ++ l) = true := by
  induction a with
  | nil => simpa using h
  | cons c rest ih =>
    rw [List.cons_append, hasDotDot_cons, ih, Bool.or_true]

/-- A component equal to the traversal segment `..` makes the rendered path
string contain the `..` substring. -/
theorem hasDotDot_pathChars_of_mem (comps : List String) (h : ".." ∈ comps) :
    FileOps.hasDotDot (FileOps.pathChars comps) = true := by
  induction comps with
  | nil => cases h
  | cons c rest ih =>
    rcases List.mem_cons.mp h with hc | hc
    · subst hc
      show FileOps.hasDotDot ('/' :: (String.toList ".." ++ FileOps.pathChars rest)) = true
      rw [show String.toList ".." = ['.', '.'] from rfl]
      simp only [List.cons_append, List.nil_append]
      rw [hasDotDot_cons, hasDotDot_cons, startsWithDotDot_dotdot]
      simp
    · show FileOps.hasDotDot ('/' :: (String.toList c ++ FileOps.pathChars rest)) = true
      rw [show ('/' :: (String.toList c ++ FileOps.pathChars rest) : List Char) =
            ('/' :: String.toList c) ++ FileOps.pathChars rest by simp]
      exact hasDotDot_append_left _ _ (ih hc)

/-! ## Claims -/

/-- C1: for every `capture_region(x, y, width, height)` call (in particular
with negative `x` or `y`), the crop anchors at `(max(x,0), max(y,0))` and has
dimensions `min(width, img_width - start_x) × min(height, img_height -
start_y)` (saturating subtraction); and `capture_region(-10, -10, 100, 100)`
on a 1920×1080 capture returns a 100×100 crop anchored at `(0, 0)`. -/
theorem capture_region_clamps_origin :
    (∀ (imgW imgH : Nat) (x y : Int) (width height : Nat) (r : Screenshot.CropRect),
        Screenshot.capture_region imgW imgH x y width height = .ok r →
          r.x = (max x 0).toNat ∧ r.y = (max y 0).toNat ∧
          r.w = min width (imgW - r.x) ∧ r.h = min height (imgH - r.y)) ∧
    Screenshot.capture_region 1920 1080 (-10) (-10) 100 100 = .ok ⟨0, 0, 100, 100⟩ := by
  constructor
  · intro imgW imgH x y width height r h
    unfold Screenshot.capture_region at h
    dsimp only at h
    split at h
    · exact absurd h (by simp)
    · injection h with h
      subst h
      exact ⟨rfl, rfl, rfl, rfl⟩
  · rfl

/-- Witness for C1: the general clause evaluated at the spec's own scenario. -/
theorem capture_region_clamps_origin_witness :
    (0 : Nat) = (max (-10 : Int) 0).toNat ∧ (0 : Nat) = (max (-10 : Int) 0).toNat ∧
    (100 : Nat) = min 100 (1920 - 0) ∧ (100 : Nat) = min 100 (1080 - 0) :=
  capture_region_clamps_origin.1 1920 1080 (-10) (-10) 100 100 ⟨0, 0, 100, 100⟩ rfl

/-- C2 counterexample: the crop's dimensions are NOT always the intersection
of the requested rectangle with the monitor bounds.  On a 1920×1080 capture,
the partially-off-screen request `(x=-10, y=0, 100×100)` intersects the bounds
in a 90×100 rectangle, yet the code returns a 100×100 crop; and the request
`(x=-200, y=0, 100×100)`, entirely outside the bounds (intersection width 0),
returns a 100×100 crop instead of an error. -/
theorem capture_region_intersection_cex :
    Screenshot.capture_region 1920 1080 (-10) 0 100 100 = .ok ⟨0, 0, 100, 100⟩ ∧
    Screenshot.specIntersectWidth 1920 (-10) 100 = 90 ∧ (100 : Nat) ≠ 90 ∧
    Screenshot.capture_region 1920 1080 (-200) 0 100 100 = .ok ⟨0, 0, 100, 100⟩ ∧
    Screenshot.specIntersectWidth 1920 (-200) 100 = 0 :=
  ⟨rfl, by decide, by decide, rfl, by decide⟩

/-- C2 amended: for every region request with non-negative origin, the crop's
dimensions equal the intersection of the requested rectangle with the monitor
bounds, and the request errors (never yielding a degenerate image) exactly
when that intersection has zero width or height.  (For a negative origin the
source's clamping makes the crop dimensions `min(width, img_width) ×
min(height, img_height)`, which can exceed the intersection — see the
counterexample.) -/
theorem capture_region_intersection_nonneg :
    ∀ (imgW imgH : Nat) (x y : Int) (width height : Nat), 0 ≤ x → 0 ≤ y →
      (∀ r, Screenshot.capture_region imgW imgH x y width height = .ok r →
          r.w = Screenshot.specIntersectWidth imgW x width ∧
          r.h = Screenshot.specIntersectHeight imgH y height ∧ 0 < r.w ∧ 0 < r.h) ∧
      (Screenshot.capture_region imgW imgH x y width height =
            .error "Invalid region dimensions" ↔
          Screenshot.specIntersectWidth imgW x width = 0 ∨
          Screenshot.specIntersectHeight imgH y height = 0) := by
  intro imgW imgH x y width height hx hy
  rw [specIntersectWidth_of_nonneg imgW x width hx,
      specIntersectHeight_of_nonneg imgH y height hy]
  have hmx : max x 0 = x := max_eq_left hx
  have hmy : max y 0 = y := max_eq_left hy
  constructor
  · intro r h
    unfold Screenshot.capture_region at h
    dsimp only at h
    rw [hmx, hmy] at h
    split at h
    · exact absurd h (by simp)
    · rename_i hcond
      injection h with h
      subst h
      push_neg at hcond
      exact ⟨rfl, rfl, Nat.pos_of_ne_zero hcond.1, Nat.pos_of_ne_zero hcond.2⟩
  · unfold Screenshot.capture_region
    dsimp only
    rw [hmx, hmy]
    split
    · rename_i hcond
      simpa using hcond
    · rename_i hcond
      constructor
      · intro habs
        exact absurd habs (by simp)
      · intro hz
        exact absurd hz hcond

/-- Witness for C2's amended theorem: the in-bounds request `(5, 5, 100×100)`
on a 1920×1080 capture. -/
theorem capture_region_intersection_nonneg_witness :
    (100 : Nat) = Screenshot.specIntersectWidth 1920 5 100 ∧
    (100 : Nat) = Screenshot.specIntersectHeight 1080 5 100 ∧
    0 < (100 : Nat) ∧ 0 < (100 : Nat) :=
  (capture_region_intersection_nonneg 1920 1080 5 5 100 100 (by decide) (by decide)).1
    ⟨5, 5, 100, 100⟩ rfl

/-- C3: a capture failure aborts `capture_and_show_overlay` before any write
to the snapshot store (the whole state is unchanged); a window-creation
failure (which can only happen when no overlay window exists yet) clears the
snapshot just stored by the call before surfacing the error, so the pending
snapshot read yields no value staged by the failed call. -/
theorem capture_and_show_overlay_rollback :
    (∀ (st : Overlay.OverlayState) (e : String) (buildResult : Except String Unit),
        Overlay.capture_and_show_overlay (.error e) buildResult st = (.error e, st)) ∧
    (∀ (snap : Overlay.Store) (bytes : List Nat) (e : String),
        Overlay.capture_and_show_overlay (.ok bytes) (.error e) ⟨snap, .absent⟩ =
          (.error e, ⟨none, .absent⟩)) :=
  ⟨fun _ _ _ => rfl, fun _ _ _ => rfl⟩

/-- C4: a successful `capture_and_show_overlay` overwrites the snapshot slot
with the bytes captured by that call, whatever the prior state, and
`get_screenshot_data` then returns exactly those bytes; after two sequential
successful calls the read returns exactly the second capture's bytes. -/
theorem capture_and_show_overlay_stores_capture :
    (∀ (snap : Overlay.Store) (bytes : List Nat),
        Overlay.capture_and_show_overlay (.ok bytes) (.ok ()) ⟨snap, .absent⟩ =
          (.ok (), ⟨some bytes, .hidden⟩)) ∧
    (∀ (snap : Overlay.Store) (bytes : List Nat) (b : Except String Unit),
        Overlay.capture_and_show_overlay (.ok bytes) b ⟨snap, .hidden⟩ =
          (.ok (), ⟨some bytes, .hidden⟩)) ∧
    (∀ (snap : Overlay.Store) (bytes : List Nat) (b : Except String Unit),
        Overlay.capture_and_show_overlay (.ok bytes) b ⟨snap, .visible⟩ =
          (.ok (), ⟨some bytes, .hidden⟩)) ∧
    (∀ (st : Overlay.OverlayState) (bytes1 bytes2 : List Nat) (b2 : Except String Unit),
        (Overlay.get_screenshot_data
            (Overlay.capture_and_show_overlay (.ok bytes1) (.ok ()) st).2.snapshot).1 =
          some bytes1 ∧
        (Overlay.capture_and_show_overlay (.ok bytes2) b2
            (Overlay.capture_and_show_overlay (.ok bytes1) (.ok ()) st).2).1 = .ok () ∧
        (Overlay.get_screenshot_data
            (Overlay.capture_and_show_overlay (.ok bytes2) b2
              (Overlay.capture_and_show_overlay (.ok bytes1) (.ok ()) st).2).2.snapshot).1 =
          some bytes2) := by
  refine ⟨fun _ _ => rfl, fun _ _ _ => rfl, fun _ _ _ => rfl, ?_⟩
  intro st bytes1 bytes2 b2
  rcases st with ⟨snap, w⟩
  cases w <;> exact ⟨rfl, rfl, rfl⟩

/-- C5 counterexample: `hide_overlay_window` does not "never return an
error": when a `region-overlay` window exists (even one that is already
hidden), the source calls `window.hide()` and propagates its failure through
`map_err` and `?`, so a failing platform hide surfaces as an error — while
with no window the platform is never consulted and the call succeeds. -/
theorem hide_overlay_window_error_cex :
    Overlay.hide_overlay_window (.error "platform hide failed") ⟨none, .hidden⟩ =
      (.error "platform hide failed", ⟨none, .hidden⟩) ∧
    Overlay.hide_overlay_window (.error "platform hide failed") ⟨none, .absent⟩ =
      (.ok (), ⟨none, .absent⟩) :=
  ⟨rfl, rfl⟩

/-- C5 amended: `hide_overlay_window` is safe to call any number of times
consecutively, including before any capture: with no overlay window it is a
no-op returning success without consulting the platform (whatever the
platform hide would do); whenever the platform hide call succeeds the call
returns success and is idempotent; and its only error path is a propagated
platform hide failure, which leaves the state unchanged. -/
theorem hide_overlay_window_idempotent_ok :
    (∀ (snap : Overlay.Store) (hideResult : Except String Unit),
        Overlay.hide_overlay_window hideResult ⟨snap, .absent⟩ =
          (.ok (), ⟨snap, .absent⟩)) ∧
    (∀ st : Overlay.OverlayState, (Overlay.hide_overlay_window (.ok ()) st).1 = .ok ()) ∧
    (∀ st : Overlay.OverlayState,
        Overlay.hide_overlay_window (.ok ()) (Overlay.hide_overlay_window (.ok ()) st).2 =
          Overlay.hide_overlay_window (.ok ()) st) ∧
    (∀ (snap : Overlay.Store) (e : String),
        Overlay.hide_overlay_window (.error e) ⟨snap, .hidden⟩ =
          (.error e, ⟨snap, .hidden⟩)) ∧
    (∀ (snap : Overlay.Store) (e : String),
        Overlay.hide_overlay_window (.error e) ⟨snap, .visible⟩ =
          (.error e, ⟨snap, .visible⟩)) := by
  refine ⟨?_, ?_, ?_, ?_, ?_⟩
  · intro snap hideResult
    rcases hideResult with e | u <;> rfl
  · intro st
    rcases st with ⟨snap, w⟩
    cases w <;> rfl
  · intro st
    rcases st with ⟨snap, w⟩
    cases w <;> rfl
  · intro snap e
    rfl
  · intro snap e
    rfl

/-- C6: clearing the snapshot slot then reading returns absent, from any prior
state; clearing is idempotent; reading is side-effect-free (it returns the
stored value and leaves the slot unchanged). -/
theorem clear_then_read_absent :
    ∀ s : Overlay.Store,
      (Overlay.get_screenshot_data (Overlay.clear_screenshot_data s)).1 = none ∧
      Overlay.clear_screenshot_data (Overlay.clear_screenshot_data s) =
        Overlay.clear_screenshot_data s ∧
      (Overlay.get_screenshot_data s).2 = s ∧ (Overlay.get_screenshot_data s).1 = s :=
  fun _ => ⟨rfl, rfl, rfl, rfl⟩

/-- C7 counterexample: a clipboard payload of exactly the 50 MiB ceiling does
NOT pass the size checks.  50 MiB = 52428800 bytes is not a multiple of 3, so
its canonically padded base64 encoding has 69905068 characters; the pre-decode
estimate `69905068 * 3 / 4 = 52428801` strictly exceeds the ceiling, and
`copy_image_to_clipboard` rejects the payload with the pre-decode "Image too
large" error even though every external collaborator would succeed. -/
theorem size_ceiling_exact_cex :
    Clipboard.base64CanonicalLen (50 * 1024 * 1024) = 69905068 ∧
    (50 * 1024 * 1024 : Nat) = 52428800 ∧
    Clipboard.copy_image_to_clipboard
        (fun _ => .ok (List.replicate (50 * 1024 * 1024) 0))
        (fun _ => .ok ⟨1, 1⟩) (fun _ => .ok ())
        (List.replicate 69905068 'A') =
      .error (.imageTooLarge 52428801) := by
  refine ⟨by decide, by decide, ?_⟩
  unfold Clipboard.copy_image_to_clipboard
  simp only [List.length_replicate]
  norm_num [Clipboard.MAX_IMAGE_SIZE]

/-- C7 amended: both paths enforce the 50 MiB ceiling with a strict
greater-than comparison, before any decode or write side effect; a `save_file`
payload of exactly the ceiling passes its size check (the call below succeeds
end to end), but on the clipboard path every canonically padded base64 payload
whose decoded size is at least the ceiling — including exactly the ceiling —
is rejected by the pre-decode estimate, because 50 MiB is not a multiple of 3
and the estimate rounds up to the padded block size. -/
theorem size_ceiling_strict :
    (∀ (mkdir : List String → Except String Unit)
       (canonicalize : List String → Except String (List String))
       (write : List String → List Nat → Except String Unit)
       (path : List String) (data : List Nat),
        FileOps.MAX_FILE_SIZE < data.length →
          FileOps.save_file mkdir canonicalize write path data =
            (.error (.fileTooLarge (data.length / (1024 * 1024)) 50), ⟨[], none⟩)) ∧
    (∀ data : List Nat, data.length = FileOps.MAX_FILE_SIZE →
        (FileOps.save_file (fun _ => .ok ()) (fun _ => .ok ["base"]) (fun _ _ => .ok ())
            ["d", "f.png"] data).1 = .ok "/base/f.png") ∧
    (∀ (s : List Char) (d : Nat), s.length = Clipboard.base64CanonicalLen d →
        Clipboard.MAX_IMAGE_SIZE ≤ d →
        ∀ (decode : List Char → Except String (List Nat))
          (load_from_memory : List Nat → Except String Clipboard.LoadedImage)
          (set_image : Clipboard.LoadedImage → Except String Unit),
          Clipboard.copy_image_to_clipboard decode load_from_memory set_image s =
            .error (.imageTooLarge (s.length * 3 / 4))) := by
  refine ⟨?_, ?_, ?_⟩
  · intro mkdir canonicalize write path data hlen
    unfold FileOps.save_file
    rw [if_pos hlen]
    rfl
  · intro data hlen
    unfold FileOps.save_file
    rw [if_neg (by rw [hlen]; exact lt_irrefl _)]
    rfl
  · intro s d hs hd decode load_from_memory set_image
    have hgt : s.length * 3 / 4 > Clipboard.MAX_IMAGE_SIZE := by
      rw [hs]
      unfold Clipboard.base64CanonicalLen
      unfold Clipboard.MAX_IMAGE_SIZE at hd ⊢
      omega
    unfold Clipboard.copy_image_to_clipboard
    dsimp only
    rw [if_pos hgt]

/-- Witness for C7's amended theorem: a 50 MiB + 1 byte file payload is
rejected, an exactly-50 MiB file payload is saved, and a 50 MiB + 1 byte
clipboard payload (canonical base64 length 69905068) is rejected before
decoding. -/
theorem size_ceiling_strict_witness :
    FileOps.save_file (fun _ => .ok ()) (fun _ => .ok ["base"]) (fun _ _ => .ok ())
        ["d", "f.png"] (List.replicate 52428801 0) =
      (.error (.fileTooLarge ((List.replicate 52428801 (0 : Nat)).length / (1024 * 1024)) 50),
       ⟨[], none⟩) ∧
    (FileOps.save_file (fun _ => .ok ()) (fun _ => .ok ["base"]) (fun _ _ => .ok ())
        ["d", "f.png"] (List.replicate 52428800 0)).1 = .ok "/base/f.png" ∧
    Clipboard.copy_image_to_clipboard (fun _ => .ok []) (fun _ => .ok ⟨1, 1⟩)
        (fun _ => .ok ()) (List.replicate 69905068 'A') =
      .error (.imageTooLarge ((List.replicate 69905068 'A').length * 3 / 4)) :=
  ⟨size_ceiling_strict.1 _ _ _ _ _ (by simp only [List.length_replicate]; decide),
   size_ceiling_strict.2.1 _ (by simp only [List.length_replicate]; decide),
   size_ceiling_strict.2.2 _ 52428801 (by simp only [List.length_replicate]; decide)
     (by decide) _ _ _⟩

/-- C8: if `save_file` succeeds, the parent directory of the destination was
created (`create_dir_all`) and resolved to its canonical form, and the
returned path is the canonical parent joined with the original filename; and
whenever the canonical parent contains the traversal segment `..` as a
component, the call returns an error and no bytes are written.  (The joined
filename itself can never be the `..` segment, since `Path::file_name` returns
`None` for it, so the canonical destination contains a traversal segment
exactly when the canonical parent does.) -/
theorem save_file_canonical_no_traversal :
    (∀ (mkdir : List String → Except String Unit)
       (canonicalize : List String → Except String (List String))
       (write : List String → List Nat → Except String Unit)
       (path : List String) (data : List Nat) (out : String) (eff : FileOps.SaveEffects),
        FileOps.save_file mkdir canonicalize write path data = (.ok out, eff) →
          ∃ par cp fn, FileOps.parent path = some par ∧ mkdir par = .ok () ∧
            eff.dirsCreated = [par] ∧ canonicalize par = .ok cp ∧
            FileOps.file_name path = some fn ∧
            out = String.mk (FileOps.pathChars (cp ++ [fn])) ∧
            eff.written = some (cp ++ [fn], data)) ∧
    (∀ (mkdir : List String → Except String Unit)
       (canonicalize : List String → Except String (List String))
       (write : List String → List Nat → Except String Unit)
       (path : List String) (data : List Nat) (par cp : List String),
        FileOps.parent path = some par → canonicalize par = .ok cp → ".." ∈ cp →
          (FileOps.save_file mkdir canonicalize write path data).2.written = none ∧
          (FileOps.save_file mkdir canonicalize write path data).1.isOk = false) := by
  constructor
  · intro mkdir canonicalize write path data out eff h
    unfold FileOps.save_file at h
    split at h
    · simp at h
    split at h
    · simp at h
    rename_i par hpar
    split at h
    · simp at h
    rename_i u hmk
    split at h
    · simp at h
    rename_i cp hcanon
    split at h
    · simp at h
    rename_i fn hfn
    dsimp only at h
    split at h
    · simp at h
    split at h
    · simp at h
    rename_i w hw
    rw [Prod.mk.injEq] at h
    obtain ⟨h1, h2⟩ := h
    injection h1 with h1
    subst h2
    cases u
    exact ⟨par, cp, fn, hpar, hmk, rfl, hcanon, hfn, h1.symm, rfl⟩
  · intro mkdir canonicalize write path data par cp hpar hcanon hmem
    unfold FileOps.save_file
    split
    · exact ⟨rfl, rfl⟩
    · rcases hmk : mkdir par with e | u
      · simp only [hpar, hmk]
        simp [Except.isOk, Except.toBool]
      · rcases hfn : FileOps.file_name path with _ | fn
        · simp only [hpar, hmk, hcanon, hfn]
          simp [Except.isOk, Except.toBool]
        · have hin : (".." : String) ∈ cp ++ [fn] := List.mem_append_left _ hmem
          simp only [hpar, hmk, hcanon, hfn, hasDotDot_pathChars_of_mem _ hin, if_true]
          simp [Except.isOk, Except.toBool]

/-- Witness for C8: a canonical parent containing a `..` component makes
`save_file` fail without writing. -/
theorem save_file_canonical_no_traversal_witness :
    (FileOps.save_file (fun _ => .ok ()) (fun _ => .ok ["home", "..", "x"])
        (fun _ _ => .ok ()) ["tmp", "shot.png"] [1, 2]).2.written = none ∧
    (FileOps.save_file (fun _ => .ok ()) (fun _ => .ok ["home", "..", "x"])
        (fun _ _ => .ok ()) ["tmp", "shot.png"] [1, 2]).1.isOk = false :=
  save_file_canonical_no_traversal.2 _ _ _ ["tmp", "shot.png"] [1, 2] ["tmp"]
    ["home", "..", "x"] rfl rfl (by decide)

/-- C9 counterexample: `capture_window` searches the raw platform window list,
not the title-filtered enumeration that `get_windows` returns.  With a single
window whose title is empty and whose id is 5, `get_windows` enumerates no
windows at all, yet `capture_window 5` succeeds. -/
theorem capture_window_filter_cex :
    Screenshot.capture_window (fun _ => .ok [7])
        (.ok [⟨some 5, some "app", some "", some 0, some 0, some 10, some 10,
              .ok ⟨10, 10⟩⟩]) 5 =
      .ok [7] ∧
    Screenshot.get_windows
        (.ok [⟨some 5, some "app", some "", some 0, some 0, some 10, some 10,
              .ok ⟨10, 10⟩⟩]) =
      .ok [] :=
  ⟨rfl, rfl⟩

/-- C9 amended: `capture_window` succeeds only when the supplied id matches
the (defaulted) id of some window in the platform's raw, unfiltered window
list — windows with empty titles included, so matching a window that
`get_windows` does not enumerate is possible; an id matching no window in the
raw list yields the "Window not found" error. -/
theorem capture_window_matches_raw_list :
    (∀ (png_encode : Screenshot.ImageD → Except String (List Nat))
       (ws : List Screenshot.XcapWindowData) (window_id : Nat) (r : List Nat),
        Screenshot.capture_window png_encode (.ok ws) window_id = .ok r →
          ws.any (fun w => w.id.getD 0 == window_id) = true) ∧
    (∀ (png_encode : Screenshot.ImageD → Except String (List Nat))
       (ws : List Screenshot.XcapWindowData) (window_id : Nat),
        (∀ w ∈ ws, w.id.getD 0 ≠ window_id) →
          Screenshot.capture_window png_encode (.ok ws) window_id =
            .error "Window not found") := by
  constructor
  · intro png_encode ws window_id r h
    unfold Screenshot.capture_window at h
    dsimp only at h
    split at h
    · simp at h
    rename_i w hf
    have hp := List.find?_some hf
    rw [List.any_eq_true]
    exact ⟨w, List.mem_of_find?_eq_some hf, hp⟩
  · intro png_encode ws window_id hall
    have hnone : ws.find? (fun w => w.id.getD 0 == window_id) = none := by
      rw [List.find?_eq_none]
      intro w hw
      simpa using hall w hw
    unfold Screenshot.capture_window
    dsimp only
    rw [hnone]

/-- Witness for C9's amended theorem: a raw list with a matching id (empty
title) satisfies the success condition, and the empty raw list yields the
"Window not found" error. -/
theorem capture_window_matches_raw_list_witness :
    ([⟨some 5, some "app", some "", some 0, some 0, some 10, some 10,
        .ok ⟨10, 10⟩⟩] : List Screenshot.XcapWindowData).any
        (fun w => w.id.getD 0 == 5) = true ∧
    Screenshot.capture_window (fun _ => .ok [7]) (.ok []) 5 =
      .error "Window not found" :=
  ⟨capture_window_matches_raw_list.1 (fun _ => .ok [7]) _ 5 [7] rfl,
   capture_window_matches_raw_list.2 (fun _ => .ok [7]) [] 5 (by simp)⟩

/-- C10: the post-decode "Decoded image too large" branch of
`copy_image_to_clipboard` is unreachable: a base64 input that passes the
pre-decode estimated-size gate and decodes successfully (canonical padding)
has decoded length at most the ceiling, so the result is never the
`decodedTooLarge` error. -/
theorem clipboard_post_decode_gate_unreachable :
    ∀ (s : List Char) (d : Nat), s.length = Clipboard.base64CanonicalLen d →
      s.length * 3 / 4 ≤ Clipboard.MAX_IMAGE_SIZE →
      d ≤ Clipboard.MAX_IMAGE_SIZE ∧
      ∀ (decode : List Char → Except String (List Nat))
        (load_from_memory : List Nat → Except String Clipboard.LoadedImage)
        (set_image : Clipboard.LoadedImage → Except String Unit) (bytes : List Nat),
        decode s = .ok bytes → bytes.length = d →
        ∀ n, Clipboard.copy_image_to_clipboard decode load_from_memory set_image s ≠
          .error (.decodedTooLarge n) := by
  intro s d hs hest
  have hdle : d ≤ Clipboard.MAX_IMAGE_SIZE := by
    rw [hs] at hest
    unfold Clipboard.base64CanonicalLen at hest
    omega
  refine ⟨hdle, ?_⟩
  intro decode load_from_memory set_image bytes hdec hblen n
  unfold Clipboard.copy_image_to_clipboard
  dsimp only
  rw [if_neg (by omega), hdec]
  dsimp only
  rw [if_neg (by rw [hblen]; omega)]
  rcases hl : load_from_memory bytes with e | img
  · simp [hl]
  · rcases hset : set_image img with e | u
    · simp [hl, hset]
    · simp [hl, hset]

/-- Witness for C10: a 4-character canonical base64 input decoding to 3 bytes
passes the estimate gate and never hits the post-decode branch. -/
theorem clipboard_post_decode_gate_unreachable_witness :
    (3 : Nat) ≤ Clipboard.MAX_IMAGE_SIZE ∧
    Clipboard.copy_image_to_clipboard (fun _ => .ok [9, 9, 9]) (fun _ => .ok ⟨1, 1⟩)
        (fun _ => .ok ()) ['A', 'B', 'C', 'D'] ≠
      .error (.decodedTooLarge 3) :=
  ⟨(clipboard_post_decode_gate_unreachable ['A', 'B', 'C', 'D'] 3 (by decide) (by decide)).1,
   (clipboard_post_decode_gate_unreachable ['A', 'B', 'C', 'D'] 3 (by decide) (by decide)).2
     _ _ _ [9, 9, 9] rfl rfl 3⟩
